import Mathlib

set_option maxHeartbeats 1000000

/-!
Shallow embedding of `scripts/caddy_to_clf.py`: a stateless line-by-line
converter from Caddy JSON access-log records to Combined Log Format.

Modelling decisions, all taken from the source:

* Parsed JSON/Python values are modelled by `PyVal`.  JSON numbers are
  modelled as integers (`vint`): every numeric field the program's contract
  exercises (`ts`, `status`, `size`) is integral in the verified properties.
* `json.loads` (Python standard library) is modelled by its outcome,
  `Except Unit PyVal`, where `.error ()` stands for a `json.JSONDecodeError`
  raised on a malformed line.
* Python exceptions that the body of `json_to_clf` can raise are modelled by
  `PyExc`.  The source's `except (json.JSONDecodeError, KeyError, ValueError)`
  clause catches exactly the exceptions `catchable` holds; every other
  exception (notably `AttributeError`, `TypeError`, `IndexError`) escapes the
  function and aborts the process.
* `datetime.fromtimestamp(ts)` produces a *naive* local datetime; local time
  is modelled by an explicit UTC-offset parameter `tz` (seconds east of UTC),
  and the civil-date computation is the standard proleptic-Gregorian
  conversion.  `strftime('%z')` on a naive datetime renders as the empty
  string.  The `datetime` range restriction (years 1..9999) and fractional
  timestamps are outside the modelled range; no verified property uses them.
-/

inductive PyVal : Type where
  | vnull : PyVal
  | vbool : Bool → PyVal
  | vint : Int → PyVal
  | vstr : String → PyVal
  | vlist : List PyVal → PyVal
  | vdict : List (String × PyVal) → PyVal
  deriving Repr

inductive PyExc : Type where
  | jsonDecodeError : PyExc
  | keyError : PyExc
  | valueError : PyExc
  | attrError : PyExc
  | typeError : PyExc
  | indexError : PyExc
  deriving DecidableEq, Repr

/-- The exception classes named in the source's `except` clause
(`json.JSONDecodeError`, `KeyError`, `ValueError`). -/
def catchable : PyExc → Bool
  | .jsonDecodeError => true
  | .keyError => true
  | .valueError => true
  | _ => false

/-- Python `x.get(k)` on a parsed JSON value: on a dict, the value stored at
`k` or `None` when absent; any non-dict raises `AttributeError`. -/
def dGet (v : PyVal) (k : String) : Except PyExc PyVal :=
  match v with
  | .vdict l => .ok ((l.lookup k).getD .vnull)
  | _ => .error .attrError

/-- Python `x.get(k, d)` with an explicit default. -/
def dGetD (v : PyVal) (k : String) (d : PyVal) : Except PyExc PyVal :=
  match v with
  | .vdict l => .ok ((l.lookup k).getD d)
  | _ => .error .attrError

/-- Python `v == lit` where `lit` is a string literal: only an equal string
compares equal; a value of any other type compares unequal. -/
def pyEqLit (v : PyVal) (lit : String) : Bool :=
  match v with
  | .vstr s => s == lit
  | _ => false

/-- Python truthiness of a parsed JSON value. -/
def pyTruthy : PyVal → Bool
  | .vnull => false
  | .vbool b => b
  | .vint n => n != 0
  | .vstr s => s != ""
  | .vlist xs => !xs.isEmpty
  | .vdict xs => !xs.isEmpty

/-- Python `x[0]`: first element of a list (or `IndexError` when empty),
first character of a string, `KeyError` on a JSON dict (whose keys are
strings, never the integer `0`), `TypeError` otherwise. -/
def pySub0 : PyVal → Except PyExc PyVal
  | .vlist (a :: _) => .ok a
  | .vlist [] => .error .indexError
  | .vstr s =>
    match s.data with
    | [] => .error .indexError
    | c :: _ => .ok (.vstr (String.mk [c]))
  | .vdict _ => .error .keyError
  | _ => .error .typeError

mutual

/-- Python `repr` of a parsed JSON value (string escaping not modelled; no
verified property prints a container or a quote-bearing string). -/
def pyRepr : PyVal → String
  | .vnull => "None"
  | .vbool b => if b then "True" else "False"
  | .vint n => toString n
  | .vstr s => "\x27" ++ s ++ "\x27"
  | .vlist xs => "[" ++ pyReprList xs ++ "]"
  | .vdict xs => "\x7b" ++ pyReprDict xs ++ "\x7d"

def pyReprList : List PyVal → String
  | [] => ""
  | [a] => pyRepr a
  | a :: rest => pyRepr a ++ ", " ++ pyReprList rest

def pyReprDict : List (String × PyVal) → String
  | [] => ""
  | [(k, v)] => "\x27" ++ k ++ "\x27: " ++ pyRepr v
  | (k, v) :: rest => "\x27" ++ k ++ "\x27: " ++ pyRepr v ++ ", " ++ pyReprDict rest

end

/-- Python `str` of a parsed JSON value, as used by f-string interpolation. -/
def pyStr : PyVal → String
  | .vstr s => s
  | v => pyRepr v

/-- Two-digit zero-padded field (`%d`, `%H`, `%M`, `%S`). -/
def pad2 (n : Nat) : String :=
  if n < 10 then "0" ++ toString n else toString n

/-- `%Y`: the year zero-padded to four digits. -/
def pad4 (y : Int) : String :=
  let s := toString y
  if 0 ≤ y ∧ s.length < 4 then String.mk (List.replicate (4 - s.length) '0') ++ s else s

/-- `%b`: abbreviated month name. -/
def monthAbbrev : Nat → String
  | 1 => "Jan" | 2 => "Feb" | 3 => "Mar" | 4 => "Apr" | 5 => "May" | 6 => "Jun"
  | 7 => "Jul" | 8 => "Aug" | 9 => "Sep" | 10 => "Oct" | 11 => "Nov" | _ => "Dec"

structure CivilTime : Type where
  year : Int
  month : Nat
  day : Nat
  hour : Nat
  minute : Nat
  second : Nat
  deriving DecidableEq, Repr

/-- Days since 1970-01-01 to proleptic-Gregorian (year, month, day). -/
def civilFromDays (z0 : Int) : Int × Nat × Nat :=
  let z := z0 + 719468
  let era : Int := Int.fdiv z 146097
  let doe : Nat := (z - era * 146097).toNat
  let yoe : Nat := (doe - doe / 1460 + doe / 36524 - doe / 146096) / 365
  let doy : Nat := doe - (365 * yoe + yoe / 4 - yoe / 100)
  let mp : Nat := (5 * doy + 2) / 153
  let d : Nat := doy - (153 * mp + 2) / 5 + 1
  let m : Nat := if mp < 10 then mp + 3 else mp - 9
  let y : Int := (yoe : Int) + era * 400 + (if m ≤ 2 then 1 else 0)
  (y, m, d)

/-- `datetime.fromtimestamp(t)`: the naive civil datetime of Unix time `t`
in the local timezone whose UTC offset is `tz` seconds. -/
def localCivil (tz t : Int) : CivilTime :=
  let loc := t + tz
  let days := Int.fdiv loc 86400
  let sod := (loc - days * 86400).toNat
  let ymd := civilFromDays days
  ⟨ymd.1, ymd.2.1, ymd.2.2, sod / 3600, (sod % 3600) / 60, sod % 60⟩

/-- `'%d/%b/%Y:%H:%M:%S'` applied to a civil datetime. -/
def strftimeNaive (c : CivilTime) : String :=
  pad2 c.day ++ "/" ++ monthAbbrev c.month ++ "/" ++ pad4 c.year ++ ":" ++
    pad2 c.hour ++ ":" ++ pad2 c.minute ++ ":" ++ pad2 c.second

/-- `strftime('%z')` on a naive datetime (no tzinfo): the empty string. -/
def strftimeZNaive : String := ""

/-- `dt.strftime('%d/%b/%Y:%H:%M:%S %z')` on the naive `dt`. -/
def strftimePrimary (c : CivilTime) : String :=
  strftimeNaive c ++ " " ++ strftimeZNaive

/-- `dt.strftime('%d/%b/%Y:%H:%M:%S +0000')`, the fallback format. -/
def strftimeFallback (c : CivilTime) : String :=
  strftimeNaive c ++ " +0000"

/-- Python `a or b` on strings: `a` when truthy (non-empty), else `b`. -/
def pyOrStr (a b : String) : String :=
  if a = "" then b else a

/-- The `time_str` computed at line 31 of the source for timestamp `t`. -/
def timeStrOf (tz t : Int) : String :=
  pyOrStr (strftimePrimary (localCivil tz t)) (strftimeFallback (localCivil tz t))

/-- `datetime.fromtimestamp` applied to the raw `ts` value: numeric values
(ints, bools) are accepted, any other type raises `TypeError`. -/
def fromtimestampV : PyVal → Except PyExc Int
  | .vint n => .ok n
  | .vbool b => .ok (if b then 1 else 0)
  | _ => .error .typeError

/-- The body of `json_to_clf` (the `try` suite, lines 15-47 of the source),
translated statement by statement.  `parsed` is the outcome of
`json.loads(json_line)`. -/
def jsonToClfTry (tz : Int) : Except Unit PyVal → Except PyExc (Option String)
  | .error _ => .error .jsonDecodeError
  | .ok data => do
    let loggerV ← dGet data "logger"
    if pyEqLit loggerV "http.log.access.log0" then
      let request ← dGetD data "request" (.vdict [])
      let rip ← dGetD request "remote_ip" (.vstr "-")
      let remote_ip := if pyEqLit rip "::1" then PyVal.vstr "127.0.0.1" else rip
      let tsV ← dGetD data "ts" (.vint 0)
      let t ← fromtimestampV tsV
      let time_str := timeStrOf tz t
      let method ← dGetD request "method" (.vstr "-")
      let uri ← dGetD request "uri" (.vstr "-")
      let proto ← dGetD request "proto" (.vstr "-")
      let status ← dGetD data "status" (.vint 0)
      let size ← dGetD data "size" (.vint 0)
      let headers ← dGetD request "headers" (.vdict [])
      let uaProbe ← dGet headers "User-Agent"
      let user_agent ←
        if pyTruthy uaProbe then do
          let u ← dGetD headers "User-Agent" (.vlist [.vstr "-"])
          pySub0 u
        else
          pure (PyVal.vstr "-")
      let refProbe ← dGet headers "Referer"
      let referer ←
        if pyTruthy refProbe then do
          let r ← dGetD headers "Referer" (.vlist [.vstr "-"])
          pySub0 r
        else
          pure (PyVal.vstr "-")
      return some (pyStr remote_ip ++ " - - [" ++ time_str ++ "] \"" ++
        pyStr method ++ " " ++ pyStr uri ++ " " ++ pyStr proto ++ "\" " ++
        pyStr status ++ " " ++ pyStr size ++ " \"" ++ pyStr referer ++ "\" \"" ++
        pyStr user_agent ++ "\"")
    else
      return none

/-- `json_to_clf`: the `try` body wrapped by the `except` clause, which turns
a catchable exception into the `None` result and lets any other escape. -/
def json_to_clf (tz : Int) (parsed : Except Unit PyVal) : Except PyExc (Option String) :=
  match jsonToClfTry tz parsed with
  | .error e => if catchable e then .ok none else .error e
  | .ok r => .ok r

/-- The `__main__` driver loop: convert each line, print the result when it
is truthy (a non-empty string); an uncaught exception aborts the process.
The result is the list of printed lines and the escaped exception, if any. -/
def processLines (tz : Int) : List (Except Unit PyVal) → List String × Option PyExc
  | [] => ([], none)
  | l :: rest =>
    match json_to_clf tz l with
    | .error e => ([], some e)
    | .ok none => processLines tz rest
    | .ok (some s) =>
      if s = "" then processLines tz rest
      else ((s :: (processLines tz rest).1), (processLines tz rest).2)

/-- The REMOTE_IP field of the output, as a function of the request dict:
the `remote_ip` value (default `-`), with the string `::1` rewritten to
`127.0.0.1` (source lines 24-27). -/
def ripOut (rq : List (String × PyVal)) : PyVal :=
  let r := (rq.lookup "remote_ip").getD (.vstr "-")
  if pyEqLit r "::1" then .vstr "127.0.0.1" else r

/-- A CLF header field as a function of the headers dict: the first element
of the list stored under `k`, and `-` when the key is absent or its list is
empty (source lines 41-42, for header values that are lists). -/
def hdrFirst (hs : List (String × PyVal)) (k : String) : PyVal :=
  match hs.lookup k with
  | some (.vlist (a :: _)) => a
  | _ => .vstr "-"

/-- The headers of the spec's concrete scenario record. -/
def sampleHdrs : List (String × PyVal) :=
  [("User-Agent", .vlist [.vstr "TestAgent/1.0"])]

/-- The request object of the spec's concrete scenario record. -/
def sampleReq : List (String × PyVal) :=
  [("remote_ip", .vstr "::1"), ("method", .vstr "GET"),
    ("uri", .vstr "/index.html"), ("proto", .vstr "HTTP/1.1"),
    ("headers", .vdict sampleHdrs)]

/-- The concrete record of the spec's first scenario:
`{"logger":"http.log.access.log0","ts":1700000000,"status":200,"size":512,
  "request":{"remote_ip":"::1","method":"GET","uri":"/index.html",
  "proto":"HTTP/1.1","headers":{"User-Agent":["TestAgent/1.0"]}}}`. -/
def sampleRec : List (String × PyVal) :=
  [("logger", .vstr "http.log.access.log0"), ("ts", .vint 1700000000),
    ("status", .vint 200), ("size", .vint 512), ("request", .vdict sampleReq)]

def sampleAccessRec : PyVal := .vdict sampleRec

/-- A filtered record carrying non-numeric `status` and `size` values. -/
def statusStrRec : List (String × PyVal) :=
  [("logger", .vstr "http.log.access.log0"), ("status", .vstr "abc"),
    ("size", .vstr "12")]

/-- The tail of the CLF line after the REMOTE_IP field and the
`' - - ['` separator. -/
def clfRest (tz t : Int) (l rq hs : List (String × PyVal)) : String :=
  timeStrOf tz t ++ "] \"" ++ pyStr ((rq.lookup "method").getD (.vstr "-")) ++ " " ++
  pyStr ((rq.lookup "uri").getD (.vstr "-")) ++ " " ++
  pyStr ((rq.lookup "proto").getD (.vstr "-")) ++ "\" " ++
  pyStr ((l.lookup "status").getD (.vint 0)) ++ " " ++
  pyStr ((l.lookup "size").getD (.vint 0)) ++ " \"" ++
  pyStr (hdrFirst hs "Referer") ++ "\" \"" ++ pyStr (hdrFirst hs "User-Agent") ++ "\""

/-- The CLF line up to and including the SIZE field. -/
def clfThroughSize (tz t : Int) (l rq : List (String × PyVal)) : String :=
  pyStr (ripOut rq) ++ " - - [" ++ timeStrOf tz t ++ "] \"" ++
  pyStr ((rq.lookup "method").getD (.vstr "-")) ++ " " ++
  pyStr ((rq.lookup "uri").getD (.vstr "-")) ++ " " ++
  pyStr ((rq.lookup "proto").getD (.vstr "-")) ++ "\" " ++
  pyStr ((l.lookup "status").getD (.vint 0)) ++ " " ++
  pyStr ((l.lookup "size").getD (.vint 0))

/-- The CLF line up to and including the PROTO field, before the closing
quote of the request line. -/
def clfThroughProto (tz t : Int) (rq : List (String × PyVal)) : String :=
  pyStr (ripOut rq) ++ " - - [" ++ timeStrOf tz t ++ "] \"" ++
  pyStr ((rq.lookup "method").getD (.vstr "-")) ++ " " ++
  pyStr ((rq.lookup "uri").getD (.vstr "-")) ++ " " ++
  pyStr ((rq.lookup "proto").getD (.vstr "-"))

theorem ebind_ok {α β : Type} (a : α) (f : α → Except PyExc β) :
    (Except.ok a : Except PyExc α) >>= f = f a := rfl

theorem ebind_error {α β : Type} (e : PyExc) (f : α → Except PyExc β) :
    (Except.error e : Except PyExc α) >>= f = .error e := rfl

theorem str_length_append (a b : String) :
    (a ++ b).length = a.length + b.length := by
  cases a
  cases b
  simp [String.length, String.append]

theorem strftimePrimary_ne_empty (c : CivilTime) : strftimePrimary c ≠ "" := by
  intro h
  have hl := congrArg String.length h
  rw [strftimePrimary, str_length_append, str_length_append] at hl
  have h2 : (" " : String).length = 1 := rfl
  have h3 : ("" : String).length = 0 := rfl
  omega

theorem str_append_assoc (a b c : String) : a ++ b ++ c = a ++ (b ++ c) := by
  cases a with | mk la =>
  cases b with | mk lb =>
  cases c with | mk lc =>
  show String.mk (la ++ lb ++ lc) = String.mk (la ++ (lb ++ lc))
  rw [List.append_assoc]

theorem str_append_empty (s : String) : s ++ "" = s := by
  cases s with | mk l =>
  show String.mk (l ++ []) = String.mk l
  rw [List.append_nil]

theorem ebind_inv {α β : Type} {x : Except PyExc α} {f : α → Except PyExc β} {b : β}
    (h : x >>= f = .ok b) : ∃ a, x = .ok a ∧ f a = .ok b := by
  cases x with
  | error e => exact absurd h (by simp [ebind_error])
  | ok a => exact ⟨a, rfl, by rwa [ebind_ok] at h⟩

/-- The single success path of the converter, for a record that passes the
logger filter and whose request, timestamp and headers are well-typed: the
emitted line is the CLF template with every field extracted independently
from its own key. -/
theorem try_template (tz : Int) (l rq hs : List (String × PyVal)) (t : Int)
    (hlog : (l.lookup "logger").getD .vnull = .vstr "http.log.access.log0")
    (hreq : (l.lookup "request").getD (.vdict []) = .vdict rq)
    (hts : fromtimestampV ((l.lookup "ts").getD (.vint 0)) = .ok t)
    (hhdr : (rq.lookup "headers").getD (.vdict []) = .vdict hs)
    (hua : ∀ v, hs.lookup "User-Agent" = some v → ∃ xs, v = .vlist xs)
    (href : ∀ v, hs.lookup "Referer" = some v → ∃ xs, v = .vlist xs) :
    jsonToClfTry tz (.ok (.vdict l)) = .ok (some (
      pyStr (ripOut rq) ++ " - - [" ++ timeStrOf tz t ++ "] \"" ++
      pyStr ((rq.lookup "method").getD (.vstr "-")) ++ " " ++
      pyStr ((rq.lookup "uri").getD (.vstr "-")) ++ " " ++
      pyStr ((rq.lookup "proto").getD (.vstr "-")) ++ "\" " ++
      pyStr ((l.lookup "status").getD (.vint 0)) ++ " " ++
      pyStr ((l.lookup "size").getD (.vint 0)) ++ " \"" ++
      pyStr (hdrFirst hs "Referer") ++ "\" \"" ++
      pyStr (hdrFirst hs "User-Agent") ++ "\"")) := by
  unfold jsonToClfTry
  simp only [dGet, dGetD, ebind_ok, hlog, hreq, hts, hhdr, pyEqLit, beq_self_eq_true,
    if_true, ripOut]
  rcases hU : hs.lookup "User-Agent" with _ | vU
  · rcases hR : hs.lookup "Referer" with _ | vR
    · simp [hU, hR, hdrFirst, pyTruthy, pySub0, ebind_ok, pure, Except.pure]
    · obtain ⟨xsR, rfl⟩ := href vR hR
      cases xsR with
      | nil => simp [hU, hR, hdrFirst, pyTruthy, pySub0, ebind_ok, pure, Except.pure]
      | cons a r => simp [hU, hR, hdrFirst, pyTruthy, pySub0, ebind_ok, pure, Except.pure]
  · obtain ⟨xsU, rfl⟩ := hua vU hU
    rcases hR : hs.lookup "Referer" with _ | vR
    · cases xsU with
      | nil => simp [hU, hR, hdrFirst, pyTruthy, pySub0, ebind_ok, pure, Except.pure]
      | cons a r => simp [hU, hR, hdrFirst, pyTruthy, pySub0, ebind_ok, pure, Except.pure]
    · obtain ⟨xsR, rfl⟩ := href vR hR
      cases xsU with
      | nil =>
        cases xsR with
        | nil => simp [hU, hR, hdrFirst, pyTruthy, pySub0, ebind_ok, pure, Except.pure]
        | cons a r => simp [hU, hR, hdrFirst, pyTruthy, pySub0, ebind_ok, pure, Except.pure]
      | cons a r =>
        cases xsR with
        | nil => simp [hU, hR, hdrFirst, pyTruthy, pySub0, ebind_ok, pure, Except.pure]
        | cons b q => simp [hU, hR, hdrFirst, pyTruthy, pySub0, ebind_ok, pure, Except.pure]

/-- `try_template` carried through the `except` wrapper. -/
theorem conv_template (tz : Int) (l rq hs : List (String × PyVal)) (t : Int)
    (hlog : (l.lookup "logger").getD .vnull = .vstr "http.log.access.log0")
    (hreq : (l.lookup "request").getD (.vdict []) = .vdict rq)
    (hts : fromtimestampV ((l.lookup "ts").getD (.vint 0)) = .ok t)
    (hhdr : (rq.lookup "headers").getD (.vdict []) = .vdict hs)
    (hua : ∀ v, hs.lookup "User-Agent" = some v → ∃ xs, v = .vlist xs)
    (href : ∀ v, hs.lookup "Referer" = some v → ∃ xs, v = .vlist xs) :
    json_to_clf tz (.ok (.vdict l)) = .ok (some (
      pyStr (ripOut rq) ++ " - - [" ++ timeStrOf tz t ++ "] \"" ++
      pyStr ((rq.lookup "method").getD (.vstr "-")) ++ " " ++
      pyStr ((rq.lookup "uri").getD (.vstr "-")) ++ " " ++
      pyStr ((rq.lookup "proto").getD (.vstr "-")) ++ "\" " ++
      pyStr ((l.lookup "status").getD (.vint 0)) ++ " " ++
      pyStr ((l.lookup "size").getD (.vint 0)) ++ " \"" ++
      pyStr (hdrFirst hs "Referer") ++ "\" \"" ++
      pyStr (hdrFirst hs "User-Agent") ++ "\"")) := by
  unfold json_to_clf
  rw [try_template tz l rq hs t hlog hreq hts hhdr hua href]

/-- C8: the `+0000` fallback on source line 31 is unreachable: for every
timestamp the converter accepts, the primary `strftime` expression yields a
non-empty string, so the Python `or` always selects the primary format and
the fallback format is never the one emitted. -/
theorem c8_fallback_unreachable (tz t : Int) :
    strftimePrimary (localCivil tz t) ≠ "" ∧
    timeStrOf tz t = strftimePrimary (localCivil tz t) := by
  refine ⟨strftimePrimary_ne_empty _, ?_⟩
  rw [timeStrOf, pyOrStr, if_neg (strftimePrimary_ne_empty _)]

/-- C1 (refuted as stated): the bracketed timestamp is the local-time
rendering of `ts`, but its UTC-offset suffix is always EMPTY, never a signed
4-digit offset: `%z` on the naive datetime renders as the empty string, so
`time_str` is the date-time text followed by a bare space, and the concrete
record of the spec emits `[14/Nov/2023:22:13:20 ]` with no `±ZZZZ`. -/
theorem c1_offset_suffix_empty :
    (∀ tz t : Int, timeStrOf tz t = strftimeNaive (localCivil tz t) ++ " ") ∧
    json_to_clf 0 (.ok sampleAccessRec) =
      .ok (some "127.0.0.1 - - [14/Nov/2023:22:13:20 ] \"GET /index.html HTTP/1.1\" 200 512 \"-\" \"TestAgent/1.0\"") := by
  constructor
  · intro tz t
    rw [timeStrOf, pyOrStr, if_neg (strftimePrimary_ne_empty _), strftimePrimary,
      strftimeZNaive, str_append_empty]
  · rfl

/-- C2 (refuted as stated): a well-formed JSON line whose top-level value is
not an object raises `AttributeError` at `data.get`, which the `except`
clause does not catch; the exception escapes the converter and aborts the
driver loop, so subsequent valid lines produce no output. -/
theorem c2_nonobject_escapes :
    json_to_clf 0 (.ok (.vlist [.vint 1, .vint 2, .vint 3])) = .error .attrError ∧
    processLines 0 [.ok (.vlist [.vint 1, .vint 2, .vint 3]), .ok sampleAccessRec] =
      ([], some .attrError) := ⟨rfl, rfl⟩

/-- C3: for every parsed JSON object whose `logger` value is not exactly the
string `http.log.access.log0` (absent and non-string values included), the
converter yields `None`. -/
theorem c3_logger_filter (tz : Int) (l : List (String × PyVal))
    (h : (l.lookup "logger").getD .vnull ≠ .vstr "http.log.access.log0") :
    json_to_clf tz (.ok (.vdict l)) = .ok none := by
  have hb : pyEqLit ((l.lookup "logger").getD .vnull) "http.log.access.log0" = false := by
    rcases hv : (l.lookup "logger").getD .vnull with _ | b | n | s | xs | xs
    · rfl
    · rfl
    · rfl
    · simp only [pyEqLit, beq_eq_false_iff_ne, ne_eq]
      intro hs
      exact h (by rw [hv, hs])
    · rfl
    · rfl
  have ht : jsonToClfTry tz (.ok (.vdict l)) = .ok none := by
    unfold jsonToClfTry
    simp [dGet, ebind_ok, hb, pure, Except.pure]
  unfold json_to_clf
  rw [ht]

theorem c3_logger_filter_witness :
    json_to_clf 0 (.ok (.vdict [("logger", .vstr "tls.handshake"), ("status", .vint 200)])) =
      .ok none :=
  c3_logger_filter 0 _ (by simp [List.lookup])

/-- C4: for every valid HTTP-access record with all fields present, the
output line is exactly the CLF template with each extracted value in its
position, and the spec's concrete record yields
`127.0.0.1 - - [...] "GET /index.html HTTP/1.1" 200 512 "-" "TestAgent/1.0"`. -/
theorem c4_full_record :
    (∀ (tz t st sz : Int) (ip mth u pr ua rf : String) (uas rfs : List PyVal),
      json_to_clf tz (.ok (.vdict [("logger", .vstr "http.log.access.log0"), ("ts", .vint t),
        ("status", .vint st), ("size", .vint sz),
        ("request", .vdict [("remote_ip", .vstr ip), ("method", .vstr mth),
          ("uri", .vstr u), ("proto", .vstr pr),
          ("headers", .vdict [("User-Agent", .vlist (.vstr ua :: uas)),
            ("Referer", .vlist (.vstr rf :: rfs))])])])) =
      .ok (some ((if ip == "::1" then "127.0.0.1" else ip) ++ " - - [" ++ timeStrOf tz t ++
        "] \"" ++ mth ++ " " ++ u ++ " " ++ pr ++ "\" " ++ toString st ++ " " ++ toString sz ++
        " \"" ++ rf ++ "\" \"" ++ ua ++ "\""))) ∧
    json_to_clf 0 (.ok sampleAccessRec) =
      .ok (some ("127.0.0.1 - - [" ++ timeStrOf 0 1700000000 ++
        "] \"GET /index.html HTTP/1.1\" 200 512 \"-\" \"TestAgent/1.0\"")) := by
  constructor
  · intro tz t st sz ip mth u pr ua rf uas rfs
    rw [conv_template tz
      [("logger", .vstr "http.log.access.log0"), ("ts", .vint t),
        ("status", .vint st), ("size", .vint sz),
        ("request", .vdict [("remote_ip", .vstr ip), ("method", .vstr mth),
          ("uri", .vstr u), ("proto", .vstr pr),
          ("headers", .vdict [("User-Agent", .vlist (.vstr ua :: uas)),
            ("Referer", .vlist (.vstr rf :: rfs))])])]
      [("remote_ip", .vstr ip), ("method", .vstr mth), ("uri", .vstr u), ("proto", .vstr pr),
        ("headers", .vdict [("User-Agent", .vlist (.vstr ua :: uas)),
          ("Referer", .vlist (.vstr rf :: rfs))])]
      [("User-Agent", .vlist (.vstr ua :: uas)), ("Referer", .vlist (.vstr rf :: rfs))]
      t rfl rfl rfl rfl
      (fun v hv => ⟨_, (Option.some.inj hv).symm⟩)
      (fun v hv => ⟨_, (Option.some.inj hv).symm⟩)]
    by_cases hip : ip = "::1"
    · simp [ripOut, hdrFirst, pyStr, pyRepr, pyEqLit, List.lookup, hip]
    · simp [ripOut, hdrFirst, pyStr, pyRepr, pyEqLit, List.lookup, hip]
  · rfl

/-- C6: for every record passing the logger filter with well-typed request,
timestamp and headers, each output field is computed from its own key alone,
so each absent optional field independently takes its default: `-` for
`method`/`uri`/`proto`/`remote_ip` and the headers, `0` for `status`/`size`. -/
theorem c6_independent_defaults (tz : Int) (l rq hs : List (String × PyVal)) (t : Int)
    (hlog : (l.lookup "logger").getD .vnull = .vstr "http.log.access.log0")
    (hreq : (l.lookup "request").getD (.vdict []) = .vdict rq)
    (hts : fromtimestampV ((l.lookup "ts").getD (.vint 0)) = .ok t)
    (hhdr : (rq.lookup "headers").getD (.vdict []) = .vdict hs)
    (hua : ∀ v, hs.lookup "User-Agent" = some v → ∃ xs, v = .vlist xs)
    (href : ∀ v, hs.lookup "Referer" = some v → ∃ xs, v = .vlist xs) :
    json_to_clf tz (.ok (.vdict l)) = .ok (some (
      pyStr (ripOut rq) ++ " - - [" ++ timeStrOf tz t ++ "] \"" ++
      pyStr ((rq.lookup "method").getD (.vstr "-")) ++ " " ++
      pyStr ((rq.lookup "uri").getD (.vstr "-")) ++ " " ++
      pyStr ((rq.lookup "proto").getD (.vstr "-")) ++ "\" " ++
      pyStr ((l.lookup "status").getD (.vint 0)) ++ " " ++
      pyStr ((l.lookup "size").getD (.vint 0)) ++ " \"" ++
      pyStr (hdrFirst hs "Referer") ++ "\" \"" ++
      pyStr (hdrFirst hs "User-Agent") ++ "\"")) :=
  conv_template tz l rq hs t hlog hreq hts hhdr hua href

theorem c6_witness :
    json_to_clf 0 (.ok (.vdict [("logger", .vstr "http.log.access.log0")])) =
      .ok (some "- - - [01/Jan/1970:00:00:00 ] \"- - -\" 0 0 \"-\" \"-\"") := by
  have h := c6_independent_defaults 0 [("logger", .vstr "http.log.access.log0")] [] [] 0
    rfl rfl rfl rfl (fun x hx => nomatch hx) (fun x hx => nomatch hx)
  exact h.trans rfl

/-- C5: for every record passing the logger filter with well-typed fields,
a `remote_ip` of exactly `::1` is emitted as `127.0.0.1`, any other string
value is emitted unchanged, and a missing `remote_ip` is emitted as `-`. -/
theorem c5_remote_ip_cases (tz : Int) (l rq hs : List (String × PyVal)) (t : Int)
    (hlog : (l.lookup "logger").getD .vnull = .vstr "http.log.access.log0")
    (hreq : (l.lookup "request").getD (.vdict []) = .vdict rq)
    (hts : fromtimestampV ((l.lookup "ts").getD (.vint 0)) = .ok t)
    (hhdr : (rq.lookup "headers").getD (.vdict []) = .vdict hs)
    (hua : ∀ v, hs.lookup "User-Agent" = some v → ∃ xs, v = .vlist xs)
    (href : ∀ v, hs.lookup "Referer" = some v → ∃ xs, v = .vlist xs) :
    (rq.lookup "remote_ip" = some (.vstr "::1") →
      json_to_clf tz (.ok (.vdict l)) =
        .ok (some ("127.0.0.1" ++ " - - [" ++ clfRest tz t l rq hs))) ∧
    (∀ s : String, rq.lookup "remote_ip" = some (.vstr s) → s ≠ "::1" →
      json_to_clf tz (.ok (.vdict l)) =
        .ok (some (s ++ " - - [" ++ clfRest tz t l rq hs))) ∧
    (rq.lookup "remote_ip" = none →
      json_to_clf tz (.ok (.vdict l)) =
        .ok (some ("-" ++ " - - [" ++ clfRest tz t l rq hs))) := by
  have hc := conv_template tz l rq hs t hlog hreq hts hhdr hua href
  refine ⟨fun h1 => ?_, fun s h2 hs2 => ?_, fun h3 => ?_⟩
  · rw [hc]
    simp [clfRest, ripOut, h1, pyEqLit, pyStr, str_append_assoc]
  · rw [hc]
    simp [clfRest, ripOut, h2, pyEqLit, pyStr, hs2, str_append_assoc]
  · rw [hc]
    simp [clfRest, ripOut, h3, pyEqLit, pyStr, str_append_assoc]

theorem c5_witness :
    json_to_clf 0 (.ok (.vdict sampleRec)) =
      .ok (some ("127.0.0.1" ++ " - - [" ++ clfRest 0 1700000000 sampleRec sampleReq sampleHdrs)) :=
  (c5_remote_ip_cases 0 sampleRec sampleReq sampleHdrs 1700000000 rfl rfl rfl rfl
    (fun v hv => ⟨_, (Option.some.inj hv).symm⟩) (fun x hx => nomatch hx)).1 rfl

/-- C7: for every record passing the logger filter with list-valued headers,
the REFERER and USER_AGENT output fields are the first element of the list
stored under the `Referer` and `User-Agent` keys respectively, and each
independently defaults to `-` when its key is absent or its list is empty. -/
theorem c7_header_fields (tz : Int) (l rq hs : List (String × PyVal)) (t : Int)
    (hlog : (l.lookup "logger").getD .vnull = .vstr "http.log.access.log0")
    (hreq : (l.lookup "request").getD (.vdict []) = .vdict rq)
    (hts : fromtimestampV ((l.lookup "ts").getD (.vint 0)) = .ok t)
    (hhdr : (rq.lookup "headers").getD (.vdict []) = .vdict hs)
    (hua : ∀ v, hs.lookup "User-Agent" = some v → ∃ xs, v = .vlist xs)
    (href : ∀ v, hs.lookup "Referer" = some v → ∃ xs, v = .vlist xs) :
    json_to_clf tz (.ok (.vdict l)) = .ok (some (clfThroughSize tz t l rq ++ " \"" ++
      pyStr (hdrFirst hs "Referer") ++ "\" \"" ++ pyStr (hdrFirst hs "User-Agent") ++ "\"")) ∧
    (∀ k, hs.lookup k = none → hdrFirst hs k = .vstr "-") ∧
    (∀ k, hs.lookup k = some (.vlist []) → hdrFirst hs k = .vstr "-") ∧
    (∀ k a r, hs.lookup k = some (.vlist (a :: r)) → hdrFirst hs k = a) := by
  refine ⟨?_, fun k hk => ?_, fun k hk => ?_, fun k a r hk => ?_⟩
  · rw [conv_template tz l rq hs t hlog hreq hts hhdr hua href]
    simp [clfThroughSize, str_append_assoc]
  · simp [hdrFirst, hk]
  · simp [hdrFirst, hk]
  · simp [hdrFirst, hk]

theorem c7_witness :
    json_to_clf 0 (.ok (.vdict sampleRec)) =
      .ok (some (clfThroughSize 0 1700000000 sampleRec sampleReq ++ " \"" ++
        pyStr (hdrFirst sampleHdrs "Referer") ++ "\" \"" ++
        pyStr (hdrFirst sampleHdrs "User-Agent") ++ "\"")) :=
  (c7_header_fields 0 sampleRec sampleReq sampleHdrs 1700000000 rfl rfl rfl rfl
    (fun v hv => ⟨_, (Option.some.inj hv).symm⟩) (fun x hx => nomatch hx)).1

/-- C10: the `status` and `size` values undergo no numeric validation or
coercion: whatever values those keys hold (here arbitrary `PyVal`s, e.g.
strings) are emitted verbatim through Python `str` in the STATUS and SIZE
positions, and the line is not skipped. -/
theorem c10_status_size_verbatim (tz : Int) (l rq hs : List (String × PyVal)) (t : Int)
    (v w : PyVal)
    (hlog : (l.lookup "logger").getD .vnull = .vstr "http.log.access.log0")
    (hreq : (l.lookup "request").getD (.vdict []) = .vdict rq)
    (hts : fromtimestampV ((l.lookup "ts").getD (.vint 0)) = .ok t)
    (hhdr : (rq.lookup "headers").getD (.vdict []) = .vdict hs)
    (hua : ∀ v, hs.lookup "User-Agent" = some v → ∃ xs, v = .vlist xs)
    (href : ∀ v, hs.lookup "Referer" = some v → ∃ xs, v = .vlist xs)
    (hst : l.lookup "status" = some v) (hsz : l.lookup "size" = some w) :
    json_to_clf tz (.ok (.vdict l)) = .ok (some (clfThroughProto tz t rq ++ "\" " ++
      pyStr v ++ " " ++ pyStr w ++ " \"" ++
      pyStr (hdrFirst hs "Referer") ++ "\" \"" ++ pyStr (hdrFirst hs "User-Agent") ++ "\"")) := by
  rw [conv_template tz l rq hs t hlog hreq hts hhdr hua href]
  simp [clfThroughProto, hst, hsz, str_append_assoc]

theorem c10_witness :
    json_to_clf 0 (.ok (.vdict statusStrRec)) = .ok (some (clfThroughProto 0 0 [] ++ "\" " ++
      pyStr (.vstr "abc") ++ " " ++ pyStr (.vstr "12") ++ " \"" ++
      pyStr (hdrFirst [] "Referer") ++ "\" \"" ++ pyStr (hdrFirst [] "User-Agent") ++ "\"")) :=
  c10_status_size_verbatim 0 statusStrRec [] [] 0 (.vstr "abc") (.vstr "12")
    rfl rfl rfl rfl (fun x hx => nomatch hx) (fun x hx => nomatch hx) rfl rfl

theorem shape_ne_empty {s a b : String} (hs : s = a ++ (" - - [" ++ b)) : s ≠ "" := by
  intro h0
  rw [h0] at hs
  have hl := congrArg String.length hs
  rw [str_length_append, str_length_append] at hl
  have h2 : (" - - [" : String).length = 6 := rfl
  have h3 : ("" : String).length = 0 := rfl
  omega

theorem clf_ok_shape (tz : Int) (pr : Except Unit PyVal) (s : String)
    (h : json_to_clf tz pr = .ok (some s)) : ∃ a b, s = a ++ (" - - [" ++ b) := by
  have htry : jsonToClfTry tz pr = .ok (some s) := by
    unfold json_to_clf at h
    rcases he : jsonToClfTry tz pr with e | r
    · rw [he] at h
      by_cases hc : catchable e <;> simp [hc] at h
    · rw [he] at h
      cases r with
      | none => simp at h
      | some s2 =>
        simp only [Except.ok.injEq, Option.some.injEq] at h
        rw [h]
  cases pr with
  | error u => exact absurd htry (by simp [jsonToClfTry])
  | ok data =>
    unfold jsonToClfTry at htry
    cases data with
    | vnull => simp [dGet, ebind_error] at htry
    | vbool b => simp [dGet, ebind_error] at htry
    | vint n => simp [dGet, ebind_error] at htry
    | vstr s2 => simp [dGet, ebind_error] at htry
    | vlist xs => simp [dGet, ebind_error] at htry
    | vdict l =>
      simp only [dGet, dGetD, ebind_ok] at htry
      cases hcond : pyEqLit ((l.lookup "logger").getD .vnull) "http.log.access.log0" with
      | false =>
        rw [hcond] at htry
        simp [pure, Except.pure] at htry
      | true =>
        rw [hcond] at htry
        simp only [if_true] at htry
        obtain ⟨rip, hrip, htry⟩ := ebind_inv htry
        obtain ⟨t, ht, htry⟩ := ebind_inv htry
        obtain ⟨mth, hm, htry⟩ := ebind_inv htry
        obtain ⟨u, hu, htry⟩ := ebind_inv htry
        obtain ⟨p, hp, htry⟩ := ebind_inv htry
        obtain ⟨hd, hh, htry⟩ := ebind_inv htry
        obtain ⟨uaP, hup, htry⟩ := ebind_inv htry
        rcases hUA : pyTruthy uaP with _ | _
        all_goals rw [hUA] at htry
        all_goals simp only [Bool.false_eq_true, if_false, if_true, pure, Except.pure,
          ebind_ok] at htry
        · obtain ⟨refP, hrp, htry⟩ := ebind_inv htry
          rcases hRF : pyTruthy refP with _ | _
          all_goals rw [hRF] at htry
          all_goals simp only [Bool.false_eq_true, if_false, if_true, pure, Except.pure,
            ebind_ok, Except.ok.injEq, Option.some.injEq] at htry
          · simp only [str_append_assoc] at htry
            exact ⟨_, _, htry.symm⟩
          · obtain ⟨rv, hrv, htry⟩ := ebind_inv htry
            obtain ⟨rv2, hrv2, htry⟩ := ebind_inv htry
            simp only [pure, Except.pure, Except.ok.injEq, Option.some.injEq] at htry
            simp only [str_append_assoc] at htry
            exact ⟨_, _, htry.symm⟩
        · obtain ⟨uv, huv, htry⟩ := ebind_inv htry
          obtain ⟨uv2, huv2, htry⟩ := ebind_inv htry
          obtain ⟨refP, hrp, htry⟩ := ebind_inv htry
          rcases hRF : pyTruthy refP with _ | _
          all_goals rw [hRF] at htry
          all_goals simp only [Bool.false_eq_true, if_false, if_true, pure, Except.pure,
            ebind_ok, Except.ok.injEq, Option.some.injEq] at htry
          · simp only [str_append_assoc] at htry
            exact ⟨_, _, htry.symm⟩
          · obtain ⟨rv, hrv, htry⟩ := ebind_inv htry
            obtain ⟨rv2, hrv2, htry⟩ := ebind_inv htry
            simp only [pure, Except.pure, Except.ok.injEq, Option.some.injEq] at htry
            simp only [str_append_assoc] at htry
            exact ⟨_, _, htry.symm⟩

/-- C9: every present result of the converter is a non-empty string
containing the fixed template text `' - - ['`, so the driver's truthiness
test prints exactly the successfully converted lines, never dropping one. -/
theorem c9_present_always_printed (tz : Int) (pr : Except Unit PyVal) (s : String)
    (h : json_to_clf tz pr = .ok (some s)) :
    s ≠ "" ∧ (∃ a b, s = a ++ (" - - [" ++ b)) ∧
    ∀ ls, processLines tz (pr :: ls) =
      (s :: (processLines tz ls).1, (processLines tz ls).2) := by
  obtain ⟨a, b, hs⟩ := clf_ok_shape tz pr s h
  have hne := shape_ne_empty hs
  refine ⟨hne, ⟨a, b, hs⟩, fun ls => ?_⟩
  simp only [processLines, h]
  rw [if_neg hne]

theorem c9_witness :
    ("127.0.0.1 - - [14/Nov/2023:22:13:20 ] \"GET /index.html HTTP/1.1\" 200 512 \"-\" \"TestAgent/1.0\"" : String) ≠ "" ∧
    (∃ a b, "127.0.0.1 - - [14/Nov/2023:22:13:20 ] \"GET /index.html HTTP/1.1\" 200 512 \"-\" \"TestAgent/1.0\"" = a ++ (" - - [" ++ b)) ∧
    ∀ ls, processLines 0 (.ok sampleAccessRec :: ls) =
      ("127.0.0.1 - - [14/Nov/2023:22:13:20 ] \"GET /index.html HTTP/1.1\" 200 512 \"-\" \"TestAgent/1.0\"" :: (processLines 0 ls).1,
        (processLines 0 ls).2) :=
  c9_present_always_printed 0 (.ok sampleAccessRec) _ rfl
